import Mathlib

/-!
Shallow embedding of the ElevenLabs helper layer of `streamlit_app.py`:
the three provider-facing operations `list_voices`,
`synthesize_text_to_audio_bytes` and `create_instant_voice_clone`, together
with the module-level configuration (`ELEVENLABS_API_KEY`, `HEADERS`,
`ELEVENLABS_BASE`).

Modelling choices, all taken from the source:
* A JSON value is the `Json` inductive below; Python dict insertion order is
  kept as the order of the `obj` field list.
* The HTTP transport (`requests.get` / `requests.post`) is a parameter
  `transport : HttpRequest → HttpResponse`.  A response is either a raised
  timeout exception or a reply carrying the status code, the raw body bytes
  (`r.content`), its text decoding (`r.text`) and, when the body parses as
  JSON, the parse result (`r.json()`); a stub environment supplies them
  together.
* Each helper returns a `CallTrace`: the list of upstream requests it issued,
  the `st.error` messages it displayed, and its Python result — `Except.ok`
  for a normal return, `Except.error` for an uncaught Python exception
  (`requests` timeout, or `r.json()` failing to decode).
* The `requests` library omits a header whose value is `None`, so `HEADERS`
  built from an absent key carries no `xi-api-key` entry.
* Python truthiness on strings (`voice or default`, `if model:`,
  `if not ELEVENLABS_API_KEY`) treats both `None` and `""` as falsy;
  `pyTruthy` / `pyStrOr` encode exactly that.
-/

/-- A JSON value; object fields keep Python dict insertion order. -/
inductive Json where
  | null : Json
  | bool (b : Bool) : Json
  | num (n : Int) : Json
  | str (s : String) : Json
  | arr (items : List Json) : Json
  | obj (fields : List (String × Json)) : Json
deriving Repr

/-- Uncaught Python exceptions the helpers can let escape:
`requests.exceptions.Timeout` from the transport, and
`json.JSONDecodeError` from `r.json()` on an unparsable body. -/
inductive PyExn where
  | timeout : PyExn
  | jsonDecode : PyExn
deriving Repr, DecidableEq

/-- One upstream HTTP request as handed to `requests.get` / `requests.post`:
method, URL, the headers actually sent, the JSON body (`json=payload`,
`none` for GET), and the `timeout=` argument in seconds. -/
structure HttpRequest where
  method : String
  url : String
  headers : List (String × String)
  body : Option Json
  timeoutSeconds : Nat
deriving Repr

/-- What the transport gives back: either a raised timeout exception, or a
reply with status code, raw body bytes (`r.content`), text decoding
(`r.text`) and the JSON parse of the body (`r.json()`; `none` when the body
is not JSON, in which case `r.json()` raises). -/
inductive HttpResponse where
  | timeout : HttpResponse
  | reply (status : Nat) (content : List Nat) (text : String) (json : Option Json) : HttpResponse

/-- Everything one call of a helper does that is visible to its environment:
the upstream requests it issued (in order), the `st.error` messages it
displayed, and its result (`Except.error` = uncaught Python exception). -/
structure CallTrace (α : Type) where
  requests : List HttpRequest
  uiErrors : List String
  result : Except PyExn α

/-- Line 26: `ELEVENLABS_BASE = "https://api.elevenlabs.io/v1"`. -/
def ELEVENLABS_BASE : String := "https://api.elevenlabs.io/v1"

/-- Python string truthiness on an optional string: `None` and `""` are
falsy, everything else is the string itself. -/
def pyTruthy : Option String → Option String
  | none => none
  | some s => if s = "" then none else some s

/-- Python `s or d` for an optional string `s` and default `d`. -/
def pyStrOr (s : Option String) (d : String) : String :=
  match pyTruthy s with
  | some v => v
  | none => d

/-- Line 24: `HEADERS = {"xi-api-key": ELEVENLABS_API_KEY, "Content-Type":
"application/json"}`, as the header list `requests` actually sends:
`requests` drops a header whose value is `None`, so an absent key leaves
only the Content-Type entry. -/
def HEADERS (key : Option String) : List (String × String) :=
  (match key with
   | some k => [("xi-api-key", k)]
   | none => []) ++ [("Content-Type", "application/json")]

/-- Lines 22-23: `if not ELEVENLABS_API_KEY: st.warning(...)` — the only
module-level reaction to a missing key; nothing is disabled. -/
def startup_warnings (key : Option String) : List String :=
  match pyTruthy key with
  | none => ["ELEVENLABS_API_KEY not found in streamlit secrets. Add it to run TTS features."]
  | some _ => []

/-- The base64 alphabet used by `base64.b64encode`. -/
def base64Chars : List Char :=
  "ABCDEFGHIJKLMNOPQRSTUVWXYZabcdefghijklmnopqrstuvwxyz0123456789+/".toList

/-- Character of the base64 alphabet at a 6-bit index. -/
def b64Char (n : Nat) : Char := base64Chars.getD n '?'

/-- Model of `base64.b64encode` on a byte list (bytes taken mod 256),
returning the padded ASCII string. -/
def base64Encode : List Nat → String
  | [] => ""
  | [a] =>
    let a := a % 256
    String.mk [b64Char (a / 4), b64Char (a % 4 * 16), '=', '=']
  | [a, b] =>
    let a := a % 256
    let b := b % 256
    String.mk [b64Char (a / 4), b64Char (a % 4 * 16 + b / 16), b64Char (b % 16 * 4), '=']
  | a :: b :: c :: rest =>
    let x := a % 256
    let y := b % 256
    let z := c % 256
    String.mk [b64Char (x / 4), b64Char (x % 4 * 16 + y / 16),
               b64Char (y % 16 * 4 + z / 64), b64Char (z % 64)]
      ++ base64Encode rest

/-- Lookup of a key in a JSON object field list (first match wins, as in a
Python dict, whose keys are unique). -/
def lookupFields : List (String × Json) → String → Option Json
  | [], _ => none
  | (k, v) :: rest, key => if k = key then some v else lookupFields rest key

/-- Python `d.get(key)` on a JSON value: field lookup on objects, `none`
otherwise. -/
def jsonLookup : Json → String → Option Json
  | Json.obj fields, key => lookupFields fields key
  | _, _ => none

/-- The request `list_voices` issues (line 35-36):
`requests.get(f"{ELEVENLABS_BASE}/voices", headers=HEADERS, timeout=15)`. -/
def list_voices_request (key : Option String) : HttpRequest :=
  { method := "GET"
    url := ELEVENLABS_BASE ++ "/voices"
    headers := HEADERS key
    body := none
    timeoutSeconds := 15 }

/-- Lines 33-41: `list_voices` — GET the voice catalog; on 200 return
`r.json()`, otherwise display an error via `st.error` and return `{}`. -/
def list_voices (key : Option String) (transport : HttpRequest → HttpResponse) :
    CallTrace Json :=
  match transport (list_voices_request key) with
  | HttpResponse.timeout =>
      ⟨[list_voices_request key], [], Except.error PyExn.timeout⟩
  | HttpResponse.reply status _content text js =>
      if status = 200 then
        match js with
        | some j => ⟨[list_voices_request key], [], Except.ok j⟩
        | none => ⟨[list_voices_request key], [], Except.error PyExn.jsonDecode⟩
      else
        ⟨[list_voices_request key],
         ["Error listing voices: " ++ toString status ++ " " ++ text],
         Except.ok (Json.obj [])⟩

/-- The JSON body of the TTS request (lines 50-52): `{"text": text}` plus
`model_id` when `model` is truthy. -/
def tts_payload (text : String) (model : Option String) : Json :=
  Json.obj (("text", Json.str text) ::
    (match pyTruthy model with
     | some m => [("model_id", Json.str m)]
     | none => []))

/-- The request `synthesize_text_to_audio_bytes` issues (lines 49-53):
`requests.post(f"{ELEVENLABS_BASE}/text-to-speech/{voice or
'eleven_multilingual_v2'}", headers=HEADERS, json=payload, timeout=30)`. -/
def tts_request (key : Option String) (text : String)
    (voice model : Option String) : HttpRequest :=
  { method := "POST"
    url := ELEVENLABS_BASE ++ "/text-to-speech/" ++ pyStrOr voice "eleven_multilingual_v2"
    headers := HEADERS key
    body := some (tts_payload text model)
    timeoutSeconds := 30 }

/-- Lines 43-58: `synthesize_text_to_audio_bytes` — POST the text; on 200
return `r.content`, otherwise display an error and return `b""`. -/
def synthesize_text_to_audio_bytes (key : Option String)
    (transport : HttpRequest → HttpResponse) (text : String)
    (voice model : Option String) : CallTrace (List Nat) :=
  match transport (tts_request key text voice model) with
  | HttpResponse.timeout =>
      ⟨[tts_request key text voice model], [], Except.error PyExn.timeout⟩
  | HttpResponse.reply status content rtext _js =>
      if status = 200 then
        ⟨[tts_request key text voice model], [], Except.ok content⟩
      else
        ⟨[tts_request key text voice model],
         ["TTS error " ++ toString status ++ ": " ++ rtext],
         Except.ok []⟩

/-- The JSON body of the clone request (lines 69-70):
`{"name": voice_name, "samples_base64": [b64]}`. -/
def clone_payload (voice_name : String) (sample : List Nat) : Json :=
  Json.obj [("name", Json.str voice_name),
            ("samples_base64", Json.arr [Json.str (base64Encode sample)])]

/-- The request `create_instant_voice_clone` issues (lines 66-71):
`requests.post(f"{ELEVENLABS_BASE}/voices/add", headers=HEADERS,
json=payload, timeout=60)` — a JSON POST, not a multipart upload. -/
def clone_request (key : Option String) (voice_name : String)
    (sample : List Nat) : HttpRequest :=
  { method := "POST"
    url := ELEVENLABS_BASE ++ "/voices/add"
    headers := HEADERS key
    body := some (clone_payload voice_name sample)
    timeoutSeconds := 60 }

/-- Lines 60-76: `create_instant_voice_clone` — POST name plus
base64-encoded sample; on 200/201 return `r.json()`, otherwise display an
error and return `{}`.  No validation of the name or sample happens before
the request. -/
def create_instant_voice_clone (key : Option String)
    (transport : HttpRequest → HttpResponse) (voice_name : String)
    (sample : List Nat) : CallTrace Json :=
  match transport (clone_request key voice_name sample) with
  | HttpResponse.timeout =>
      ⟨[clone_request key voice_name sample], [], Except.error PyExn.timeout⟩
  | HttpResponse.reply status _content rtext js =>
      if status = 200 ∨ status = 201 then
        match js with
        | some j => ⟨[clone_request key voice_name sample], [], Except.ok j⟩
        | none => ⟨[clone_request key voice_name sample], [], Except.error PyExn.jsonDecode⟩
      else
        ⟨[clone_request key voice_name sample],
         ["Voice clone error " ++ toString status ++ ": " ++ rtext],
         Except.ok (Json.obj [])⟩

/-- A stub transport that always answers 200 with an empty JSON object. -/
def stubOk : HttpRequest → HttpResponse :=
  fun _ => HttpResponse.reply 200 [] "ok" (some (Json.obj []))

/-- A stub transport that answers HTTP 401 to every request. -/
def stub401 : HttpRequest → HttpResponse :=
  fun _ => HttpResponse.reply 401 [] "Unauthorized" none

/-- A stub transport that times out on every request. -/
def stubTimeout : HttpRequest → HttpResponse :=
  fun _ => HttpResponse.timeout

/-- Each `list_voices` call issues exactly the one catalog request,
whatever the transport answers. -/
theorem requests_of_list_voices (key : Option String)
    (transport : HttpRequest → HttpResponse) :
    (list_voices key transport).requests = [list_voices_request key] := by
  unfold list_voices
  cases transport (list_voices_request key) with
  | timeout => rfl
  | reply status content text js =>
    by_cases hs : status = 200
    · simp only [if_pos hs]
      cases js <;> rfl
    · simp only [if_neg hs]

/-- Each `synthesize_text_to_audio_bytes` call issues exactly the one TTS
request, whatever the transport answers. -/
theorem requests_of_synthesize (key : Option String)
    (transport : HttpRequest → HttpResponse) (text : String)
    (voice model : Option String) :
    (synthesize_text_to_audio_bytes key transport text voice model).requests =
      [tts_request key text voice model] := by
  unfold synthesize_text_to_audio_bytes
  cases transport (tts_request key text voice model) with
  | timeout => rfl
  | reply status content rtext js =>
    by_cases hs : status = 200
    · simp only [if_pos hs]
    · simp only [if_neg hs]

/-- Each `create_instant_voice_clone` call issues exactly the one clone
request, whatever the transport answers. -/
theorem requests_of_clone (key : Option String)
    (transport : HttpRequest → HttpResponse) (voice_name : String)
    (sample : List Nat) :
    (create_instant_voice_clone key transport voice_name sample).requests =
      [clone_request key voice_name sample] := by
  unfold create_instant_voice_clone
  cases transport (clone_request key voice_name sample) with
  | timeout => rfl
  | reply status content rtext js =>
    by_cases hs : status = 200 ∨ status = 201
    · simp only [if_pos hs]
      cases js <;> rfl
    · simp only [if_neg hs]

/-- Claim C1: refuted on the code — an enrollment call with an empty name
and an empty audio payload still issues one upstream HTTP request and
returns normally; no ValidationError exists and no network call is
avoided. -/
theorem C1_counterexample :
    (create_instant_voice_clone (some "k") stubOk "" []).requests.length = 1
  ∧ (create_instant_voice_clone (some "k") stubOk "" []).result =
      Except.ok (Json.obj []) := by
  exact ⟨rfl, rfl⟩

/-- Claim C1 (amended): `create_instant_voice_clone` performs no input
validation at all — every call, including one with an empty name or an
empty audio payload, issues exactly one upstream HTTP request. -/
theorem C1_theorem (key : Option String)
    (transport : HttpRequest → HttpResponse) (voice_name : String)
    (sample : List Nat) :
    (create_instant_voice_clone key transport voice_name sample).requests.length = 1 := by
  rw [requests_of_clone]
  rfl

/-- Claim C4: refuted on the code — with the API key absent, `list_voices`
still proceeds, issuing one upstream request that simply lacks the
`xi-api-key` header, and returns normally; nothing is disabled and no
ConfigError exists. -/
theorem C4_counterexample :
    (list_voices none stubOk).requests = [list_voices_request none]
  ∧ (list_voices_request none).headers = [("Content-Type", "application/json")]
  ∧ (list_voices none stubOk).result = Except.ok (Json.obj []) := by
  exact ⟨rfl, rfl, rfl⟩

/-- Claim C4 (amended): an absent API key only triggers the module-level
`st.warning`; all three operations still proceed, each issuing exactly its
one upstream request, which carries no `xi-api-key` header. -/
theorem C4_theorem (transport : HttpRequest → HttpResponse) (text : String)
    (voice model : Option String) (voice_name : String) (sample : List Nat) :
    startup_warnings none =
      ["ELEVENLABS_API_KEY not found in streamlit secrets. Add it to run TTS features."]
  ∧ (list_voices none transport).requests = [list_voices_request none]
  ∧ (list_voices_request none).headers = [("Content-Type", "application/json")]
  ∧ (synthesize_text_to_audio_bytes none transport text voice model).requests =
      [tts_request none text voice model]
  ∧ (tts_request none text voice model).headers = [("Content-Type", "application/json")]
  ∧ (create_instant_voice_clone none transport voice_name sample).requests =
      [clone_request none voice_name sample]
  ∧ (clone_request none voice_name sample).headers = [("Content-Type", "application/json")] := by
  refine ⟨rfl, requests_of_list_voices none transport, rfl,
          requests_of_synthesize none transport text voice model, rfl,
          requests_of_clone none transport voice_name sample, rfl⟩

/-- Claim C5: refuted on the code — the enrollment request is a JSON POST
(Content-Type application/json, body with a base64-encoded sample field),
not a multipart/form-data upload with file parts, and carries no
description field. -/
theorem C5_counterexample :
    (create_instant_voice_clone (some "k") stubOk "demo-voice" [1, 2, 3]).requests =
      [{ method := "POST"
         url := "https://api.elevenlabs.io/v1/voices/add"
         headers := [("xi-api-key", "k"), ("Content-Type", "application/json")]
         body := some (Json.obj [("name", Json.str "demo-voice"),
                                 ("samples_base64", Json.arr [Json.str "AQID"])])
         timeoutSeconds := 60 }] := by
  rfl

/-- Claim C5 (amended): on every input, `create_instant_voice_clone` issues
exactly one upstream request: a POST to `/v1/voices/add` with the JSON
headers and a JSON body holding the name and the base64-encoded audio
sample — a single upload, but JSON rather than multipart, and with
no description part. -/
theorem C5_theorem (key : Option String)
    (transport : HttpRequest → HttpResponse) (voice_name : String)
    (sample : List Nat) :
    (create_instant_voice_clone key transport voice_name sample).requests =
      [{ method := "POST"
         url := "https://api.elevenlabs.io/v1/voices/add"
         headers := HEADERS key
         body := some (Json.obj [("name", Json.str voice_name),
                                 ("samples_base64", Json.arr [Json.str (base64Encode sample)])])
         timeoutSeconds := 60 }] := by
  rw [requests_of_clone]
  rfl

/-- Claim C6: the code contradicts the claim (and its own docstring) — when
the voice reference is omitted, the model identifier
`eleven_multilingual_v2` is substituted into the `{voice_id}` path slot of
the TTS URL, and the JSON body carries no `model_id` at all. -/
theorem C6_theorem :
    ((synthesize_text_to_audio_bytes (some "k") stubOk "Hello world" none none).requests.map
        (fun r => r.url)) =
      ["https://api.elevenlabs.io/v1/text-to-speech/eleven_multilingual_v2"]
  ∧ ((synthesize_text_to_audio_bytes (some "k") stubOk "Hello world" none none).requests.map
        (fun r => r.body)) =
      [some (Json.obj [("text", Json.str "Hello world")])] := by
  exact ⟨rfl, rfl⟩

/-- A stub transport that answers 200 with an empty body to every request. -/
def stubEmpty200 : HttpRequest → HttpResponse :=
  fun _ => HttpResponse.reply 200 [] "" none

/-- A stub transport that answers HTTP 500 to every request. -/
def stub500 : HttpRequest → HttpResponse :=
  fun _ => HttpResponse.reply 500 [] "Internal Server Error" none

/-- Claim C2: refuted on the code — against a stub that answers 200 with an
empty body, a synthesis call with non-empty text returns the empty byte
sequence as a normal (success) return, and no MIME type is part of the
return value. -/
theorem C2_counterexample :
    (synthesize_text_to_audio_bytes (some "k") stubEmpty200 "Hello" none none).result =
      Except.ok [] := by
  rfl

/-- Claim C2 (amended): on a 200 response, `synthesize_text_to_audio_bytes`
returns exactly the response body bytes — possibly empty — as its success
value, with no accompanying MIME type; an empty success is possible. -/
theorem C2_theorem (key : Option String)
    (transport : HttpRequest → HttpResponse) (text : String)
    (voice model : Option String) (content : List Nat) (rtext : String)
    (js : Option Json)
    (h : transport (tts_request key text voice model) =
         HttpResponse.reply 200 content rtext js) :
    (synthesize_text_to_audio_bytes key transport text voice model).result =
      Except.ok content := by
  unfold synthesize_text_to_audio_bytes
  rw [h]
  rfl

theorem C2_witness :
    (synthesize_text_to_audio_bytes (some "k")
      (fun _ => HttpResponse.reply 200 [255, 251] "audio" none)
      "Hello world" (some "v123") none).result = Except.ok [255, 251] :=
  C2_theorem (some "k") (fun _ => HttpResponse.reply 200 [255, 251] "audio" none)
    "Hello world" (some "v123") none [255, 251] "audio" none rfl

/-- Claim C3: refuted on the code — against a stub answering 401 to every
request, all three operations return their empty success values normally
(no typed AuthError is produced anywhere). -/
theorem C3_counterexample :
    (list_voices (some "k") stub401).result = Except.ok (Json.obj [])
  ∧ (synthesize_text_to_audio_bytes (some "k") stub401 "Hello" none none).result =
      Except.ok []
  ∧ (create_instant_voice_clone (some "k") stub401 "demo" [1]).result =
      Except.ok (Json.obj []) := by
  exact ⟨rfl, rfl, rfl⟩

/-- Claim C3 (amended): against a provider that answers HTTP 401 to every
call, each operation issues exactly one upstream request (no retry), shows
one error message, and returns its empty value — an empty dict for
`list_voices` and `create_instant_voice_clone`, empty bytes for
`synthesize_text_to_audio_bytes` — instead of a typed AuthError. -/
theorem C3_theorem (key : Option String)
    (transport : HttpRequest → HttpResponse) (content : List Nat)
    (rtext : String) (js : Option Json)
    (h : ∀ r, transport r = HttpResponse.reply 401 content rtext js)
    (text : String) (voice model : Option String) (voice_name : String)
    (sample : List Nat) :
    (list_voices key transport).requests.length = 1
  ∧ (list_voices key transport).result = Except.ok (Json.obj [])
  ∧ (list_voices key transport).uiErrors.length = 1
  ∧ (synthesize_text_to_audio_bytes key transport text voice model).requests.length = 1
  ∧ (synthesize_text_to_audio_bytes key transport text voice model).result = Except.ok []
  ∧ (synthesize_text_to_audio_bytes key transport text voice model).uiErrors.length = 1
  ∧ (create_instant_voice_clone key transport voice_name sample).requests.length = 1
  ∧ (create_instant_voice_clone key transport voice_name sample).result =
      Except.ok (Json.obj [])
  ∧ (create_instant_voice_clone key transport voice_name sample).uiErrors.length = 1 := by
  refine ⟨?_, ?_, ?_, ?_, ?_, ?_, ?_, ?_, ?_⟩ <;>
    simp only [list_voices, synthesize_text_to_audio_bytes,
               create_instant_voice_clone, h] <;>
    rfl

theorem C3_witness :
    (list_voices (some "k") stub401).requests.length = 1
  ∧ (list_voices (some "k") stub401).result = Except.ok (Json.obj [])
  ∧ (list_voices (some "k") stub401).uiErrors.length = 1
  ∧ (synthesize_text_to_audio_bytes (some "k") stub401 "Hi" none none).requests.length = 1
  ∧ (synthesize_text_to_audio_bytes (some "k") stub401 "Hi" none none).result = Except.ok []
  ∧ (synthesize_text_to_audio_bytes (some "k") stub401 "Hi" none none).uiErrors.length = 1
  ∧ (create_instant_voice_clone (some "k") stub401 "demo" [1]).requests.length = 1
  ∧ (create_instant_voice_clone (some "k") stub401 "demo" [1]).result =
      Except.ok (Json.obj [])
  ∧ (create_instant_voice_clone (some "k") stub401 "demo" [1]).uiErrors.length = 1 :=
  C3_theorem (some "k") stub401 [] "Unauthorized" none (fun _ => rfl)
    "Hi" none none "demo" [1]

/-- Claim C7: partially refuted on the code — against a stub that times out,
`synthesize_text_to_audio_bytes` lets the transport timeout exception
propagate uncaught instead of returning a typed UpstreamUnavailable value. -/
theorem C7_counterexample :
    (synthesize_text_to_audio_bytes (some "k") stubTimeout "Hello" none none).result =
      Except.error PyExn.timeout := by
  rfl

/-- Claim C7 (amended): every upstream call carries a bounded finite
timeout — 15 s for `list_voices`, 30 s for the synthesis call and 60 s for
enrollment, all within the 15-to-60-second range, with the synthesis and
enrollment timeouts strictly longer than the catalog one; however, when the
provider times out, the synthesis call propagates the transport timeout
exception rather than returning an UpstreamUnavailable value. -/
theorem C7_theorem (key : Option String)
    (transport : HttpRequest → HttpResponse) (text : String)
    (voice model : Option String) (voice_name : String) (sample : List Nat) :
    ((list_voices key transport).requests.map (fun r => r.timeoutSeconds)) = [15]
  ∧ ((synthesize_text_to_audio_bytes key transport text voice model).requests.map
      (fun r => r.timeoutSeconds)) = [30]
  ∧ ((create_instant_voice_clone key transport voice_name sample).requests.map
      (fun r => r.timeoutSeconds)) = [60]
  ∧ 15 ≤ (list_voices_request key).timeoutSeconds
  ∧ (tts_request key text voice model).timeoutSeconds ≤ 60
  ∧ (list_voices_request key).timeoutSeconds <
      (tts_request key text voice model).timeoutSeconds
  ∧ (list_voices_request key).timeoutSeconds <
      (clone_request key voice_name sample).timeoutSeconds
  ∧ (clone_request key voice_name sample).timeoutSeconds ≤ 60
  ∧ (transport (tts_request key text voice model) = HttpResponse.timeout →
      (synthesize_text_to_audio_bytes key transport text voice model).result =
        Except.error PyExn.timeout) := by
  refine ⟨?_, ?_, ?_, ?_, ?_, ?_, ?_, ?_, ?_⟩
  · rw [requests_of_list_voices]; rfl
  · rw [requests_of_synthesize]; rfl
  · rw [requests_of_clone]; rfl
  · exact Nat.le_refl 15
  · show (30 : Nat) ≤ 60
    decide
  · show (15 : Nat) < 30
    decide
  · show (15 : Nat) < 60
    decide
  · exact Nat.le_refl 60
  · intro h
    unfold synthesize_text_to_audio_bytes
    rw [h]

theorem C7_witness :
    stubTimeout (tts_request (some "k") "Hello" none none) = HttpResponse.timeout
  ∧ (synthesize_text_to_audio_bytes (some "k") stubTimeout "Hello" none none).result =
      Except.error PyExn.timeout :=
  ⟨rfl, (C7_theorem (some "k") stubTimeout "Hello" none none "demo" []).2.2.2.2.2.2.2.2 rfl⟩

/-- Claim C8: confirmed — on a 200 reply whose JSON body holds a list of
voice entries, `list_voices` returns that body verbatim, so its `voices`
field is exactly the provider's entry list: the same count, in the same
order. -/
theorem C8_theorem (key : Option String)
    (transport : HttpRequest → HttpResponse) (vs : List Json)
    (rest : List (String × Json)) (content : List Nat) (rtext : String)
    (h : transport (list_voices_request key) =
         HttpResponse.reply 200 content rtext
           (some (Json.obj (("voices", Json.arr vs) :: rest)))) :
    (list_voices key transport).result =
      Except.ok (Json.obj (("voices", Json.arr vs) :: rest))
  ∧ jsonLookup (Json.obj (("voices", Json.arr vs) :: rest)) "voices" =
      some (Json.arr vs) := by
  constructor
  · unfold list_voices
    rw [h]
    rfl
  · rfl

/-- A two-entry voice catalog, as a stub provider would serve it. -/
def twoVoices : List Json :=
  [Json.obj [("voice_id", Json.str "v1"), ("name", Json.str "Alice")],
   Json.obj [("voice_id", Json.str "v2"), ("name", Json.str "Bob")]]

/-- A stub transport serving the two-entry voice catalog with status 200. -/
def stubVoices : HttpRequest → HttpResponse :=
  fun _ => HttpResponse.reply 200 [] ""
    (some (Json.obj [("voices", Json.arr twoVoices)]))

theorem C8_witness :
    (list_voices (some "k") stubVoices).result =
      Except.ok (Json.obj [("voices", Json.arr twoVoices)])
  ∧ jsonLookup (Json.obj [("voices", Json.arr twoVoices)]) "voices" =
      some (Json.arr twoVoices) :=
  C8_theorem (some "k") stubVoices twoVoices [] [] "" rfl

/-- Against a fixed stub response, the result and error messages of
`list_voices` do not depend on the configured key. -/
theorem list_voices_key_blind (k1 k2 : Option String)
    (transport : HttpRequest → HttpResponse) (resp : HttpResponse)
    (h : ∀ r, transport r = resp) :
    (list_voices k1 transport).result = (list_voices k2 transport).result
  ∧ (list_voices k1 transport).uiErrors = (list_voices k2 transport).uiErrors := by
  unfold list_voices
  rw [h, h]
  cases resp with
  | timeout => exact ⟨rfl, rfl⟩
  | reply status content rtext js =>
    dsimp only
    by_cases hs : status = 200
    · rw [if_pos hs, if_pos hs]
      cases js <;> exact ⟨rfl, rfl⟩
    · rw [if_neg hs, if_neg hs]
      exact ⟨rfl, rfl⟩

/-- Against a fixed stub response, the result and error messages of
`synthesize_text_to_audio_bytes` do not depend on the configured key. -/
theorem synthesize_key_blind (k1 k2 : Option String)
    (transport : HttpRequest → HttpResponse) (resp : HttpResponse)
    (h : ∀ r, transport r = resp) (text : String) (voice model : Option String) :
    (synthesize_text_to_audio_bytes k1 transport text voice model).result =
      (synthesize_text_to_audio_bytes k2 transport text voice model).result
  ∧ (synthesize_text_to_audio_bytes k1 transport text voice model).uiErrors =
      (synthesize_text_to_audio_bytes k2 transport text voice model).uiErrors := by
  unfold synthesize_text_to_audio_bytes
  rw [h, h]
  cases resp with
  | timeout => exact ⟨rfl, rfl⟩
  | reply status content rtext js =>
    dsimp only
    by_cases hs : status = 200
    · rw [if_pos hs, if_pos hs]
      exact ⟨rfl, rfl⟩
    · rw [if_neg hs, if_neg hs]
      exact ⟨rfl, rfl⟩

/-- Against a fixed stub response, the result and error messages of
`create_instant_voice_clone` do not depend on the configured key. -/
theorem clone_key_blind (k1 k2 : Option String)
    (transport : HttpRequest → HttpResponse) (resp : HttpResponse)
    (h : ∀ r, transport r = resp) (voice_name : String) (sample : List Nat) :
    (create_instant_voice_clone k1 transport voice_name sample).result =
      (create_instant_voice_clone k2 transport voice_name sample).result
  ∧ (create_instant_voice_clone k1 transport voice_name sample).uiErrors =
      (create_instant_voice_clone k2 transport voice_name sample).uiErrors := by
  unfold create_instant_voice_clone
  rw [h, h]
  cases resp with
  | timeout => exact ⟨rfl, rfl⟩
  | reply status content rtext js =>
    dsimp only
    by_cases hs : status = 200 ∨ status = 201
    · rw [if_pos hs, if_pos hs]
      cases js <;> exact ⟨rfl, rfl⟩
    · rw [if_neg hs, if_neg hs]
      exact ⟨rfl, rfl⟩

/-- Claim C9: confirmed — every upstream request of every operation carries
the credential in the provider-defined `xi-api-key` header, and against a
fixed stub response the caller-visible outputs (results and error
messages) are identical under two different credential values, so the
credential never flows into anything returned to the caller. -/
theorem C9_theorem (k1 k2 : String) (transport : HttpRequest → HttpResponse)
    (resp : HttpResponse) (h : ∀ r, transport r = resp) (text : String)
    (voice model : Option String) (voice_name : String) (sample : List Nat) :
    (∀ r ∈ (list_voices (some k1) transport).requests,
      ("xi-api-key", k1) ∈ r.headers)
  ∧ (∀ r ∈ (synthesize_text_to_audio_bytes (some k1) transport text voice model).requests,
      ("xi-api-key", k1) ∈ r.headers)
  ∧ (∀ r ∈ (create_instant_voice_clone (some k1) transport voice_name sample).requests,
      ("xi-api-key", k1) ∈ r.headers)
  ∧ (list_voices (some k1) transport).result = (list_voices (some k2) transport).result
  ∧ (list_voices (some k1) transport).uiErrors = (list_voices (some k2) transport).uiErrors
  ∧ (synthesize_text_to_audio_bytes (some k1) transport text voice model).result =
      (synthesize_text_to_audio_bytes (some k2) transport text voice model).result
  ∧ (synthesize_text_to_audio_bytes (some k1) transport text voice model).uiErrors =
      (synthesize_text_to_audio_bytes (some k2) transport text voice model).uiErrors
  ∧ (create_instant_voice_clone (some k1) transport voice_name sample).result =
      (create_instant_voice_clone (some k2) transport voice_name sample).result
  ∧ (create_instant_voice_clone (some k1) transport voice_name sample).uiErrors =
      (create_instant_voice_clone (some k2) transport voice_name sample).uiErrors := by
  refine ⟨?_, ?_, ?_,
          (list_voices_key_blind (some k1) (some k2) transport resp h).1,
          (list_voices_key_blind (some k1) (some k2) transport resp h).2,
          (synthesize_key_blind (some k1) (some k2) transport resp h text voice model).1,
          (synthesize_key_blind (some k1) (some k2) transport resp h text voice model).2,
          (clone_key_blind (some k1) (some k2) transport resp h voice_name sample).1,
          (clone_key_blind (some k1) (some k2) transport resp h voice_name sample).2⟩
  · rw [requests_of_list_voices]
    intro r hr
    rw [List.mem_singleton] at hr
    subst hr
    exact List.mem_cons_self _ _
  · rw [requests_of_synthesize]
    intro r hr
    rw [List.mem_singleton] at hr
    subst hr
    exact List.mem_cons_self _ _
  · rw [requests_of_clone]
    intro r hr
    rw [List.mem_singleton] at hr
    subst hr
    exact List.mem_cons_self _ _

theorem C9_witness :
    (list_voices (some "alpha") stubOk).result =
      (list_voices (some "beta") stubOk).result :=
  ( C9_theorem "alpha" "beta" stubOk
    (HttpResponse.reply 200 [] "ok" (some (Json.obj [])))
    (fun _ => rfl) "Hello" none none "demo" []).2.2.2.1

/-- Claim C10: confirmed — on every upstream failure status (non-200 for
`list_voices` and `synthesize_text_to_audio_bytes`, outside 200/201 for
`create_instant_voice_clone`) the operation returns the empty value of its
success type as a normal return, indistinguishable at the return type from
a success with an empty payload. -/
theorem C10_theorem (key : Option String)
    (transport : HttpRequest → HttpResponse) (status : Nat)
    (content : List Nat) (rtext : String) (js : Option Json)
    (h : ∀ r, transport r = HttpResponse.reply status content rtext js)
    (text : String) (voice model : Option String) (voice_name : String)
    (sample : List Nat) :
    (status ≠ 200 →
      (list_voices key transport).result = Except.ok (Json.obj [])
    ∧ (synthesize_text_to_audio_bytes key transport text voice model).result =
        Except.ok [])
  ∧ (status ≠ 200 → status ≠ 201 →
      (create_instant_voice_clone key transport voice_name sample).result =
        Except.ok (Json.obj [])) := by
  constructor
  · intro hs
    constructor
    · unfold list_voices
      rw [h]
      simp only [if_neg hs]
    · unfold synthesize_text_to_audio_bytes
      rw [h]
      simp only [if_neg hs]
  · intro hs hs2
    unfold create_instant_voice_clone
    rw [h]
    have hor : ¬(status = 200 ∨ status = 201) := by
      rintro (h1 | h2)
      · exact hs h1
      · exact hs2 h2
    simp only [if_neg hor]

theorem C10_witness :
    (list_voices (some "k") stub500).result = Except.ok (Json.obj [])
  ∧ (synthesize_text_to_audio_bytes (some "k") stub500 "Hello" none none).result =
      Except.ok []
  ∧ (create_instant_voice_clone (some "k") stub500 "demo" [1]).result =
      Except.ok (Json.obj []) :=
  ⟨((C10_theorem (some "k") stub500 500 [] "Internal Server Error" none (fun _ => rfl)
      "Hello" none none "demo" [1]).1 (by decide)).1,
   ((C10_theorem (some "k") stub500 500 [] "Internal Server Error" none (fun _ => rfl)
      "Hello" none none "demo" [1]).1 (by decide)).2,
   (C10_theorem (some "k") stub500 500 [] "Internal Server Error" none (fun _ => rfl)
      "Hello" none none "demo" [1]).2 (by decide) (by decide)⟩
